import Mathlib

/-!
Shallow embedding of the VirtualizationService AIDL layer
(`virtualizationservice/src/aidl.rs`) of the Android Virtualization module,
together with proofs about the payload-lifecycle state machine, the VM
registry, CID allocation, permission checks and error propagation.

Machine integers (`u32`, `i32`) are modelled as `Nat`/`Int` with explicit
bounds where overflow matters.  Fallible operations return `Except`.
External collaborators (the permission service, the vsock transport, the
composite-image library, the filesystem) are passed in as explicit oracle
arguments so that the control flow of the embedded functions mirrors the
source exactly while their environment stays abstract.
-/

/-- Binder exception codes used by `aidl.rs` (subset of `ExceptionCode`). -/
inductive ExceptionCode
  | SECURITY
  | BAD_PARCELABLE
  | ILLEGAL_ARGUMENT
  | ILLEGAL_STATE
  | SERVICE_SPECIFIC
deriving DecidableEq

/-- A binder `Status` carrying an exception code and a message, as built by
`new_binder_exception(code, message)`. -/
structure BinderErr where
  code : ExceptionCode
  msg : String
deriving DecidableEq

/-- Embeds `new_binder_exception` from `binder_common`. -/
def new_binder_exception (code : ExceptionCode) (msg : String) : BinderErr :=
  ⟨code, msg⟩

/-- Modelled from the spec: the `PayloadState` enum lives in `crosvm.rs`,
which is not part of the sources in scope; §3 of the design gives the
strictly ordered states `Starting < Started < Ready < Finished`. -/
inductive PayloadState
  | Starting
  | Started
  | Ready
  | Finished
deriving DecidableEq

/-- Position of a payload state in the strict order
`Starting < Started < Ready < Finished`. -/
def PayloadState.idx : PayloadState → Nat
  | PayloadState.Starting => 0
  | PayloadState.Started => 1
  | PayloadState.Ready => 2
  | PayloadState.Finished => 3

/-- Modelled from the spec: `VmInstance::update_payload_state` lives in
`crosvm.rs`, which is not part of the sources in scope.  Per §3 "any call
that does not strictly advance from the current value is rejected without
mutating state" and per §8 a transition that skips a step (`Starting`
directly to `Ready`) is also rejected, so a transition is accepted exactly
when the new state is the immediate successor of the current one.  On
rejection an error message is produced (surfaced by the callers in
`aidl.rs` as an `ILLEGAL_STATE` binder exception). -/
def update_payload_state (cur new : PayloadState) : Except String PayloadState :=
  if new.idx = cur.idx + 1 then Except.ok new
  else Except.error "Invalid payload state transition"

/-- The `VmState` enum from `crosvm.rs` (not in scope; §3 of the design).
`Running` holds the child-process handle and log sink in the source; those
payloads are irrelevant to the properties proved here and are elided. -/
inductive VmState
  | NotStarted
  | Running
  | Dead
  | Failed
deriving DecidableEq

/-- The flattened externally visible state
(`VirtualMachineState` AIDL enum). -/
inductive VirtualMachineState
  | NOT_STARTED
  | STARTING
  | STARTED
  | READY
  | FINISHED
  | DEAD
deriving DecidableEq

/-- One VM instance (`crosvm.rs` `VmInstance`, fields per §3 of the design
and their uses in `aidl.rs`).  File handles and binder objects are
abstracted to `Nat` tokens; the callback set is the list of registered
listener tokens in registration order; `stream` is the optional attached
payload stream slot. -/
structure VmInstance where
  cid : Nat
  vm_state : VmState
  payload_state : PayloadState
  stream : Option Nat
  callbacks : List Nat
  requester_uid : Nat
  requester_sid : String
  requester_debug_pid : Int
  temporary_directory : String
deriving DecidableEq

/-- Embeds `get_state` (aidl.rs lines 761-773): flattens the pair
`(vm_state, payload_state)` to the externally visible state. -/
def get_state (vm : VmInstance) : VirtualMachineState :=
  match vm.vm_state with
  | VmState.NotStarted => VirtualMachineState.NOT_STARTED
  | VmState.Running =>
    match vm.payload_state with
    | PayloadState.Starting => VirtualMachineState.STARTING
    | PayloadState.Started => VirtualMachineState.STARTED
    | PayloadState.Ready => VirtualMachineState.READY
    | PayloadState.Finished => VirtualMachineState.FINISHED
  | VmState.Dead => VirtualMachineState.DEAD
  | VmState.Failed => VirtualMachineState.DEAD

/-- The flattening table exactly as the spec states it (§6): `NotStarted`
maps to `NOT_STARTED`; `Running` maps according to the payload state; both
`Dead` and `Failed` map to `DEAD`.  Stated on the `(VmState, PayloadState)`
pair, to be compared with `get_state`. -/
def spec_flattened_state (vs : VmState) (ps : PayloadState) : VirtualMachineState :=
  match vs with
  | VmState.NotStarted => VirtualMachineState.NOT_STARTED
  | VmState.Running =>
    match ps with
    | PayloadState.Starting => VirtualMachineState.STARTING
    | PayloadState.Started => VirtualMachineState.STARTED
    | PayloadState.Ready => VirtualMachineState.READY
    | PayloadState.Finished => VirtualMachineState.FINISHED
  | VmState.Dead => VirtualMachineState.DEAD
  | VmState.Failed => VirtualMachineState.DEAD

/-- Lifecycle events delivered to registered callbacks
(`IVirtualMachineCallback` methods). -/
inductive VmEvent
  | payloadStarted (cid : Nat) (stream : Option Nat)
  | payloadReady (cid : Nat)
  | payloadFinished (cid : Nat) (exitCode : Int)
  | died (cid : Nat)
deriving DecidableEq

/-- Embeds the callback fan-out loops of `VirtualMachineCallbacks`
(aidl.rs lines 631-668): each registered callback is invoked in order with
the event; `run` is the oracle giving each listener's outcome (`false`
models a binder error from that listener).  In the source an error is only
logged (`error!`) and the loop continues, so both branches proceed to the
rest of the list.  The returned list is the trace of invocations made. -/
def fanout (run : Nat → VmEvent → Bool) : List Nat → VmEvent → List (Nat × VmEvent)
  | [], _ => []
  | c :: rest, ev =>
    match run c ev with
    | true => (c, ev) :: fanout run rest ev
    | false => (c, ev) :: fanout run rest ev

/-- Embeds `VirtualMachineCallbacks::add` (aidl.rs lines 672-674):
pushes the new callback at the end of the list. -/
def CallbackSet.add (cbs : List Nat) (c : Nat) : List Nat :=
  cbs ++ [c]

/-- Embeds `State::get_vm` (aidl.rs lines 709-711) restricted to the live
instances: finds the instance with the given cid. -/
def get_vm (vms : List VmInstance) (cid : Nat) : Option VmInstance :=
  vms.find? (fun vm => vm.cid == cid)

/-- Shared-instance mutation: the handlers mutate the instance found by
`get_vm` through a shared reference (`Arc`), so every occurrence of that
instance (keyed by its cid) in the live list is updated. -/
def setVm (vms : List VmInstance) (vm' : VmInstance) : List VmInstance :=
  vms.map (fun v => if v.cid = vm'.cid then vm' else v)

/-- Embeds `notifyPayloadStarted` (aidl.rs lines 822-838).  Returns the
updated live-instance list, the trace of callback invocations, and the
binder result.  On a successful payload-state advance the attached stream
is taken (slot set to `none`) and passed with the cid to the callbacks. -/
def notifyPayloadStarted (run : Nat → VmEvent → Bool) (vms : List VmInstance)
    (cid : Nat) : List VmInstance × List (Nat × VmEvent) × Except BinderErr Unit :=
  match get_vm vms cid with
  | some vm =>
    match update_payload_state vm.payload_state PayloadState.Started with
    | Except.ok ps =>
      let stream := vm.stream
      let vm' := { vm with payload_state := ps, stream := none }
      (setVm vms vm', fanout run vm.callbacks (VmEvent.payloadStarted cid stream),
        Except.ok ())
    | Except.error e =>
      (vms, [], Except.error (new_binder_exception ExceptionCode.ILLEGAL_STATE e))
  | none =>
    (vms, [], Except.error (new_binder_exception ExceptionCode.SERVICE_SPECIFIC
      ("cannot find a VM with cid " ++ toString cid)))

/-- Embeds `notifyPayloadReady` (aidl.rs lines 840-855). -/
def notifyPayloadReady (run : Nat → VmEvent → Bool) (vms : List VmInstance)
    (cid : Nat) : List VmInstance × List (Nat × VmEvent) × Except BinderErr Unit :=
  match get_vm vms cid with
  | some vm =>
    match update_payload_state vm.payload_state PayloadState.Ready with
    | Except.ok ps =>
      let vm' := { vm with payload_state := ps }
      (setVm vms vm', fanout run vm.callbacks (VmEvent.payloadReady cid), Except.ok ())
    | Except.error e =>
      (vms, [], Except.error (new_binder_exception ExceptionCode.ILLEGAL_STATE e))
  | none =>
    (vms, [], Except.error (new_binder_exception ExceptionCode.SERVICE_SPECIFIC
      ("cannot find a VM with cid " ++ toString cid)))

/-- Embeds `notifyPayloadFinished` (aidl.rs lines 857-872). -/
def notifyPayloadFinished (run : Nat → VmEvent → Bool) (vms : List VmInstance)
    (cid : Nat) (exit_code : Int) :
    List VmInstance × List (Nat × VmEvent) × Except BinderErr Unit :=
  match get_vm vms cid with
  | some vm =>
    match update_payload_state vm.payload_state PayloadState.Finished with
    | Except.ok ps =>
      let vm' := { vm with payload_state := ps }
      (setVm vms vm', fanout run vm.callbacks (VmEvent.payloadFinished cid exit_code),
        Except.ok ())
    | Except.error e =>
      (vms, [], Except.error (new_binder_exception ExceptionCode.ILLEGAL_STATE e))
  | none =>
    (vms, [], Except.error (new_binder_exception ExceptionCode.SERVICE_SPECIFIC
      ("cannot find a VM with cid " ++ toString cid)))

/-- Embeds `connectVsock` (aidl.rs lines 602-614) on a VM handle.
`connect` is the vsock transport oracle (`VsockStream::connect_with_cid_port`)
taking the cid and port.  The second component records whether a transport
connection was attempted at all. -/
def connectVsock (connect : Nat → Nat → Except String Nat) (vm : VmInstance)
    (port : Nat) : Except BinderErr Nat × Bool :=
  if vm.vm_state = VmState.Running then
    match connect vm.cid port with
    | Except.ok s => (Except.ok s, true)
    | Except.error e =>
      (Except.error (new_binder_exception ExceptionCode.SERVICE_SPECIFIC
        ("Failed to connect: " ++ e)), true)
  else
    (Except.error (new_binder_exception ExceptionCode.SERVICE_SPECIFIC
      "VM is not running"), false)

/-- A stored registry entry: the `Weak<VmInstance>` reference together with
the current number of owning (`Arc`/binder-handle) references to the
instance.  `strong_count = 0` means every owning handle has been
released. -/
structure WeakVm where
  strong_count : Nat
  inst : VmInstance
deriving DecidableEq

/-- Embeds `Weak::upgrade`: yields the instance only while at least one
owning reference is live. -/
def WeakVm.upgrade (w : WeakVm) : Option VmInstance :=
  if 0 < w.strong_count then some w.inst else none

/-- Embeds `State::vms` (aidl.rs lines 694-697): upgrades the stored weak
pointers and keeps the live ones. -/
def State.vms (s : List WeakVm) : List VmInstance :=
  s.filterMap WeakVm.upgrade

/-- Embeds `State::add_vm` (aidl.rs lines 700-706): first garbage collects
the entries whose strong count has reached zero, then pushes the new
entry. -/
def State.add_vm (s : List WeakVm) (v : WeakVm) : List WeakVm :=
  (s.filter (fun w => 0 < w.strong_count)) ++ [v]

/-- The u32 maximum value, the bound of the `Cid` type. -/
def u32Max : Nat := 4294967295

/-- Model of Rust `str::parse::<u32>`: succeeds on a decimal digit string
whose value fits in a `u32`.  (The source's parser also accepts a leading
`+`, which no value written by `next_cid` ever contains.) -/
def parse_u32 (s : String) : Option Nat :=
  match s.toNat? with
  | some n => if n ≤ u32Max then some n else none
  | none => none

/-- Failure of CID allocation: the counter would overflow the `u32` range
(`checked_add` returns `None`); spec taxonomy kind `ResourceExhausted`
(the source surfaces it as the error "run out of CID"). -/
inductive CidError
  | ResourceExhausted
deriving DecidableEq

/-- Embeds `next_cid` (aidl.rs lines 742-758).  The persisted system
property `SYSPROP_LAST_CID` is modelled as `store : Option String`
(`none` when the property was never written).  `first` is the constant
`FIRST_GUEST_CID` from the crate root (not among the sources in scope; a
fixed first-guest `u32` value per §4.1 of the design).  On success returns
the issued cid together with the decimal string persisted for it; the
property write is modelled as succeeding. -/
def next_cid (first : Nat) (store : Option String) : Except CidError (Nat × String) :=
  match store with
  | some val =>
    match parse_u32 val with
    | some num =>
      if num = u32Max then Except.error CidError.ResourceExhausted
      else
        let next := num + 1
        Except.ok (next, Nat.repr next)
    | none =>
      let next := first
      Except.ok (next, Nat.repr next)
  | none =>
    let next := first
    Except.ok (next, Nat.repr next)

/-- Runs `k` consecutive CID allocations, threading the persisted store;
fails as soon as one allocation fails.  Returns the issued cids in order
together with the final store. -/
def run_allocs (first : Nat) : Nat → Option String → Except CidError (List Nat × Option String)
  | 0, st => Except.ok ([], st)
  | k + 1, st =>
    match next_cid first st with
    | Except.error e => Except.error e
    | Except.ok (v, st') =>
      match run_allocs first k (some st') with
      | Except.error e => Except.error e
      | Except.ok (vs, st'') => Except.ok (v :: vs, st'')

/-- Embeds `check_permission` (aidl.rs lines 526-543).  `svc` is the oracle
for the external permission service (`IPermissionController.checkPermission`
on the interface returned by `get_interface`, with a service lookup or
transaction failure folded into its error case).  The second component
records whether the external permission service was consulted. -/
def check_permission (svc : String → Int → Nat → Except BinderErr Bool)
    (calling_pid : Int) (calling_uid : Nat) (perm : String) :
    Except BinderErr Unit × Bool :=
  if calling_uid = 0 then (Except.ok (), false)
  else
    match svc perm calling_pid calling_uid with
    | Except.ok true => (Except.ok (), true)
    | Except.ok false =>
      (Except.error (new_binder_exception ExceptionCode.SECURITY
        ("does not have the " ++ perm ++ " permission")), true)
    | Except.error s => (Except.error s, true)

/-- Embeds `check_debug_access` (aidl.rs lines 546-548), the guard of
`debugListVms`, `debugHoldVmRef` and `debugDropVmRef`. -/
def check_debug_access (svc : String → Int → Nat → Except BinderErr Bool)
    (calling_pid : Int) (calling_uid : Nat) : Except BinderErr Unit × Bool :=
  check_permission svc calling_pid calling_uid "android.permission.DEBUG_VIRTUAL_MACHINE"

/-- Embeds `check_manage_access` (aidl.rs lines 551-553), the guard of
`createVm` and `initializeWritablePartition`. -/
def check_manage_access (svc : String → Int → Nat → Except BinderErr Bool)
    (calling_pid : Int) (calling_uid : Nat) : Except BinderErr Unit × Bool :=
  check_permission svc calling_pid calling_uid "android.permission.MANAGE_VIRTUAL_MACHINE"

/-- Result of running a fallible operation whose embedded code may call
`.unwrap()` on an `Err`: either a value, a structured binder error
returned to the caller, or a process abort. -/
inductive Outcome (α : Type)
  | ok (a : α)
  | err (e : BinderErr)
  | panicked
deriving DecidableEq

/-- Embeds `createOrUpdateIdsigFile` (aidl.rs lines 241-256).  The oracles
describe the environment: `cloneIn`/`cloneOut` are the `clone_file` results
for the two parcel file descriptors (a clone failure is returned as a
`BAD_PARCELABLE` structured error by `clone_file`, already folded into the
oracle's error value); `mkSig` is `V4Signature::create` on the cloned
input; `setLen` is `File::set_len(0)` on the output; `writeInto` is
`V4Signature::write_into`.  The source calls `.unwrap()` on the last three,
so their `Err` cases abort the process instead of producing a structured
error. -/
def createOrUpdateIdsigFile (cloneIn cloneOut : Except BinderErr Nat)
    (mkSig : Nat → Except String Nat) (setLen : Nat → Except String Unit)
    (writeInto : Nat → Nat → Except String Unit) : Outcome Unit :=
  match cloneIn with
  | Except.error e => Outcome.err e
  | Except.ok input =>
    match mkSig input with
    | Except.error _ => Outcome.panicked
    | Except.ok sig =>
      match cloneOut with
      | Except.error e => Outcome.err e
      | Except.ok output =>
        match setLen output with
        | Except.error _ => Outcome.panicked
        | Except.ok _ =>
          match writeInto sig output with
          | Except.error _ => Outcome.panicked
          | Except.ok _ => Outcome.ok ()

/-- A `DiskImage` parcelable from a `createVm` request: an optional backing
image descriptor, a list of partition descriptors, and the writable flag.
Descriptors are abstract `Nat` tokens. -/
structure DiskImage where
  image : Option Nat
  partitions : List Nat
  writable : Bool
deriving DecidableEq

/-- A `DiskFile` handed to crosvm: the backing file handle plus the
writable flag. -/
structure DiskFile where
  image : Nat
  writable : Bool
deriving DecidableEq

/-- Filesystem side effects performed while handling a `createVm`
request. -/
inductive FsEffect
  | createdDir (path : String)
  | createdFile (path : String)
  | openedFile (fd : Nat)
deriving DecidableEq

/-- Embeds `CompositeImageFilenames` (aidl.rs lines 495-502). -/
structure CompositeImageFilenames where
  composite : String
  header : String
  footer : String
deriving DecidableEq

/-- Embeds `make_composite_image_filenames` (aidl.rs lines 480-491):
derives the three filenames from the request-scoped counter and increments
the counter. -/
def make_composite_image_filenames (temporary_directory : String)
    (next_temporary_image_id : Nat) : CompositeImageFilenames × Nat :=
  let id := next_temporary_image_id
  (⟨temporary_directory ++ "/composite-" ++ toString id ++ ".img",
    temporary_directory ++ "/composite-" ++ toString id ++ "-header.img",
    temporary_directory ++ "/composite-" ++ toString id ++ "-footer.img"⟩,
   next_temporary_image_id + 1)

/-- Environment oracles for the `createVm` pipeline: the outcome of
`create_dir` for the temporary directory, of `write_zero_filler`, of the
external `make_composite_image` library call (returning the composite image
handle and the constituent partition file handles), and of `clone_file` on
a client-supplied descriptor. -/
structure CreateVmEnv where
  create_dir : Except String Unit
  write_zero_filler : Except String Unit
  make_composite_image : List Nat → String → Except String (Nat × List Nat)
  clone_file : Nat → Except BinderErr Nat

/-- Embeds `assemble_disk_image` (aidl.rs lines 382-431).  Returns the
binder result, the filesystem effects performed, the updated
request-scoped image-id counter and the updated indirect-file list.
Mirrors the source's branch order: a non-empty partition list is examined
first, and a spec carrying both an image and partitions is rejected with
`ILLEGAL_ARGUMENT` before any filename is derived or any file touched. -/
def assemble_disk_image (env : CreateVmEnv) (disk : DiskImage)
    (temporary_directory : String) (next_temporary_image_id : Nat)
    (indirect_files : List Nat) :
    Except BinderErr DiskFile × List FsEffect × Nat × List Nat :=
  if disk.partitions.isEmpty = false then
    if disk.image.isSome then
      (Except.error (new_binder_exception ExceptionCode.ILLEGAL_ARGUMENT
        "DiskImage contains both image and partitions."),
       [], next_temporary_image_id, indirect_files)
    else
      let fns := make_composite_image_filenames temporary_directory next_temporary_image_id
      match env.make_composite_image disk.partitions fns.1.composite with
      | Except.ok res =>
        (Except.ok ⟨res.1, disk.writable⟩,
         [FsEffect.createdFile fns.1.composite, FsEffect.createdFile fns.1.header,
          FsEffect.createdFile fns.1.footer],
         fns.2, indirect_files ++ res.2)
      | Except.error e =>
        (Except.error (new_binder_exception ExceptionCode.SERVICE_SPECIFIC
          ("Failed to make composite image: " ++ e)), [], fns.2, indirect_files)
  else
    match disk.image with
    | some image =>
      match env.clone_file image with
      | Except.ok f => (Except.ok ⟨f, disk.writable⟩, [FsEffect.openedFile f],
          next_temporary_image_id, indirect_files)
      | Except.error e => (Except.error e, [], next_temporary_image_id, indirect_files)
    | none =>
      (Except.error (new_binder_exception ExceptionCode.ILLEGAL_ARGUMENT
        "DiskImage didn't contain image or partitions."),
       [], next_temporary_image_id, indirect_files)

/-- The disk-assembly loop of `createVm` (aidl.rs lines 152-164):
assembles each disk in order and stops at the first failure, as the
`collect::<Result<Vec<DiskFile>, _>>` in the source does. -/
def assemble_disks (env : CreateVmEnv) (temporary_directory : String) :
    List DiskImage → Nat → List Nat →
    Except BinderErr (List DiskFile) × List FsEffect × Nat × List Nat
  | [], nid, ind => (Except.ok [], [], nid, ind)
  | disk :: rest, nid, ind =>
    match assemble_disk_image env disk temporary_directory nid ind with
    | (Except.error e, effs, nid', ind') => (Except.error e, effs, nid', ind')
    | (Except.ok df, effs, nid', ind') =>
      match assemble_disks env temporary_directory rest nid' ind' with
      | (Except.error e, effs', nid'', ind'') =>
        (Except.error e, effs ++ effs', nid'', ind'')
      | (Except.ok dfs, effs', nid'', ind'') =>
        (Except.ok (df :: dfs), effs ++ effs', nid'', ind'')

/-- Embeds the `createVm` request pipeline from the temporary-directory
creation to disk assembly (aidl.rs lines 112-164), for a raw config whose
disk list is `disks`; the earlier steps (permission check, log-fd clone,
caller identity, cid allocation) are handled by the dedicated models above
and do not touch the filesystem.  Returns the binder result of the disk
stage and the filesystem effects performed, in order. -/
def createVm_disks (env : CreateVmEnv) (disks : List DiskImage) (cid : Nat) :
    Except BinderErr (List DiskFile) × List FsEffect :=
  let temporary_directory := "/data/misc/virtualizationservice/" ++ toString cid
  match env.create_dir with
  | Except.error e =>
    (Except.error (new_binder_exception ExceptionCode.SERVICE_SPECIFIC
      ("Failed to create temporary directory for VM files: " ++ e)), [])
  | Except.ok _ =>
    let zero_filler_path := temporary_directory ++ "/zero.img"
    match env.write_zero_filler with
    | Except.error e =>
      (Except.error (new_binder_exception ExceptionCode.SERVICE_SPECIFIC
        ("Failed to make composite image: " ++ e)),
       [FsEffect.createdDir temporary_directory])
    | Except.ok _ =>
      match assemble_disks env temporary_directory disks 0 [] with
      | (Except.error e, effs, _, _) =>
        (Except.error e,
         FsEffect.createdDir temporary_directory
           :: FsEffect.createdFile zero_filler_path :: effs)
      | (Except.ok dfs, effs, _, _) =>
        (Except.ok dfs,
         FsEffect.createdDir temporary_directory
           :: FsEffect.createdFile zero_filler_path :: effs)

/-- A listener-outcome oracle under which every callback succeeds. -/
def run0 : Nat → VmEvent → Bool := fun _ _ => true

/-- A listener-outcome oracle under which every callback fails. -/
def runFail : Nat → VmEvent → Bool := fun _ _ => false

/-- A vsock transport oracle that always connects. -/
def connect0 : Nat → Nat → Except String Nat := fun _ _ => Except.ok 99

/-- A not-yet-started VM instance used as a concrete test input. -/
def vmNotStartedW : VmInstance :=
  ⟨5, VmState.NotStarted, PayloadState.Starting, none, [], 0, "sid", 0, "/tmp"⟩

/-- A running VM instance whose payload is still starting, with an attached
payload stream and two registered listeners. -/
def vmStartingW : VmInstance :=
  ⟨4, VmState.Running, PayloadState.Starting, some 42, [1, 2], 0, "sid", 0, "/tmp"⟩

/-- A running VM instance whose payload has started. -/
def vmStartedW : VmInstance :=
  ⟨7, VmState.Running, PayloadState.Started, none, [1, 2, 3], 0, "sid", 0, "/tmp"⟩

/-- An environment where every filesystem and library operation
succeeds. -/
def env0 : CreateVmEnv :=
  ⟨Except.ok (), Except.ok (), fun _ _ => Except.ok (100, [101]), fun n => Except.ok n⟩

/-- A disk spec declaring both a backing image and a partition list. -/
def bothDisk : DiskImage := ⟨some 7, [1], true⟩

/-- A signature oracle for which `V4Signature::create` fails (for example
because the input is not a valid APK). -/
def sigFail : Nat → Except String Nat := fun _ => Except.error "invalid apk"

/-- A truncation oracle that succeeds. -/
def lenOk : Nat → Except String Unit := fun _ => Except.ok ()

/-- A write oracle that succeeds. -/
def writeOk : Nat → Nat → Except String Unit := fun _ _ => Except.ok ()

/-- A permission-service oracle that denies every permission. -/
def svcDeny : String → Int → Nat → Except BinderErr Bool := fun _ _ _ => Except.ok false

/-- Helper: the fan-out trace is exactly the callback list paired with the
event, whatever the listeners' outcomes are. -/
theorem fanout_eq_map (run : Nat → VmEvent → Bool) (cbs : List Nat) (ev : VmEvent) :
    fanout run cbs ev = cbs.map (fun c => (c, ev)) := by
  induction cbs with
  | nil => rfl
  | cons c rest ih =>
    show fanout run (c :: rest) ev = _
    rw [fanout]
    cases run c ev <;> simp [ih]

/-- Helper: registering listeners one by one builds the list in
registration order. -/
theorem foldl_callback_add (acc ls : List Nat) :
    List.foldl CallbackSet.add acc ls = acc ++ ls := by
  induction ls generalizing acc with
  | nil => simp
  | cons c rest ih => simp [CallbackSet.add, ih]

/-- Helper: a successful `get_vm` returns an instance with the looked-up
cid. -/
theorem get_vm_cid {vms : List VmInstance} {cid : Nat} {vm : VmInstance}
    (h : get_vm vms cid = some vm) : vm.cid = cid := by
  have := List.find?_some h
  simpa using this

/-- Helper: updating the instance found by `get_vm` through the shared
reference makes the lookup return the updated instance. -/
theorem get_vm_setVm {vms : List VmInstance} {cid : Nat} {vm vm' : VmInstance}
    (h : get_vm vms cid = some vm) (hc : vm'.cid = vm.cid) :
    get_vm (setVm vms vm') cid = some vm' := by
  have hcid : vm.cid = cid := get_vm_cid h
  induction vms with
  | nil => simp [get_vm] at h
  | cons v tl ih =>
    rw [get_vm, List.find?] at h
    cases hv : (v.cid == cid) with
    | true =>
      rw [hv] at h
      injection h with h
      subst h
      have hvc : v.cid = cid := by simpa using hv
      have hcond : v.cid = vm'.cid := by rw [hvc, hc, hcid]
      rw [get_vm, setVm]
      simp only [List.map]
      rw [if_pos hcond, List.find?]
      have : (vm'.cid == cid) = true := by
        rw [hc, hcid]
        simp
      rw [this]
    | false =>
      rw [hv] at h
      have hvc : v.cid ≠ cid := by simpa using hv
      have hcond : ¬ v.cid = vm'.cid := by
        rw [hc, hcid]
        exact hvc
      have ihh := ih h
      rw [get_vm, setVm] at ihh ⊢
      simp only [List.map]
      rw [if_neg hcond, List.find?, hv]
      exact ihh

/-- C5: the externally visible state returned by `getState` and
`debugListVms` is a total function of the `(VmState, PayloadState)` pair:
`NotStarted` maps to `NOT_STARTED`; `Running` maps to `STARTING`,
`STARTED`, `READY` or `FINISHED` according to the payload state; both
`Dead` and `Failed` map to `DEAD`. -/
theorem get_state_flattens_pair :
    ∀ vm : VmInstance, get_state vm = spec_flattened_state vm.vm_state vm.payload_state := by
  intro vm
  cases h : vm.vm_state <;> cases h2 : vm.payload_state <;>
    simp [get_state, spec_flattened_state, h, h2]

/-- C10: a caller with uid 0 (root) always passes `check_manage_access`
and `check_debug_access` without the external permission service being
consulted, and a `SECURITY` (PermissionDenied) failure of
`check_permission` is only possible for a non-root caller. -/
theorem root_bypasses_permission_service :
    (∀ svc pid, check_manage_access svc pid 0 = (Except.ok (), false)) ∧
    (∀ svc pid, check_debug_access svc pid 0 = (Except.ok (), false)) ∧
    (∀ svc pid perm, (check_permission svc pid 0 perm).1 = Except.ok () ∧
      (check_permission svc pid 0 perm).2 = false) ∧
    (∀ svc pid uid perm e, (check_permission svc pid uid perm).1 = Except.error e →
      e.code = ExceptionCode.SECURITY → uid ≠ 0) := by
  refine ⟨?_, ?_, ?_, ?_⟩
  · intro svc pid
    rfl
  · intro svc pid
    rfl
  · intro svc pid perm
    exact ⟨rfl, rfl⟩
  · intro svc pid uid perm e h _ huid
    subst huid
    simp [check_permission] at h

/-- Witness for C10 at a concrete non-root caller denied by the service:
the fourth conjunct applies at uid 1000 with the concrete denial. -/
theorem root_bypasses_permission_service_witness : (1000 : Nat) ≠ 0 :=
  root_bypasses_permission_service.2.2.2 svcDeny 1 1000
    "android.permission.MANAGE_VIRTUAL_MACHINE"
    (new_binder_exception ExceptionCode.SECURITY
      "does not have the android.permission.MANAGE_VIRTUAL_MACHINE permission")
    rfl rfl

/-- C6: listeners registered in the order L1, ..., Ln are notified in that
same order, each exactly once, whatever each listener's outcome is; a
listener failure neither stops the fan-out nor makes the triggering
notification call fail. -/
theorem callbacks_notified_in_registration_order :
    (∀ run ls ev, fanout run (List.foldl CallbackSet.add [] ls) ev
        = ls.map (fun c => (c, ev))) ∧
    (∀ run run' cbs ev, fanout run cbs ev = fanout run' cbs ev) ∧
    (∀ run vms cid vm, get_vm vms cid = some vm →
      PayloadState.idx PayloadState.Ready = vm.payload_state.idx + 1 →
      (notifyPayloadReady run vms cid).2.2 = Except.ok () ∧
      (notifyPayloadReady run vms cid).2.1
        = vm.callbacks.map (fun c => (c, VmEvent.payloadReady cid))) := by
  refine ⟨?_, ?_, ?_⟩
  · intro run ls ev
    rw [foldl_callback_add, List.nil_append, fanout_eq_map]
  · intro run run' cbs ev
    rw [fanout_eq_map, fanout_eq_map]
  · intro run vms cid vm h hadv
    have hup : update_payload_state vm.payload_state PayloadState.Ready
        = Except.ok PayloadState.Ready := by
      rw [update_payload_state, if_pos hadv]
    simp only [notifyPayloadReady, h, hup]
    simp [fanout_eq_map]

/-- Witness for C6 at a concrete instance with payload `Started` and
listeners `[1, 2, 3]`, under an oracle where every listener fails. -/
theorem callbacks_notified_in_registration_order_witness :
    (notifyPayloadReady runFail [vmStartedW] 7).2.2 = Except.ok () ∧
    (notifyPayloadReady runFail [vmStartedW] 7).2.1
      = [(1, VmEvent.payloadReady 7), (2, VmEvent.payloadReady 7),
         (3, VmEvent.payloadReady 7)] :=
  callbacks_notified_in_registration_order.2.2 runFail [vmStartedW] 7 vmStartedW rfl rfl

/-- Counterexample for C7 as stated: at a concrete not-started instance,
`connectVsock` fails, but with the `SERVICE_SPECIFIC` exception code, not
`ILLEGAL_STATE` as the claim requires. -/
theorem connectVsock_rejection_is_service_specific :
    (connectVsock connect0 vmNotStartedW 8).1
      = Except.error (new_binder_exception ExceptionCode.SERVICE_SPECIFIC
          "VM is not running") ∧
    ExceptionCode.SERVICE_SPECIFIC ≠ ExceptionCode.ILLEGAL_STATE :=
  ⟨rfl, by decide⟩

/-- C7 (amended): `connectVsock` succeeds only while the instance is
`Running`; in every other `VmState` it fails with a `SERVICE_SPECIFIC`
binder exception ("VM is not running") and opens no connection. -/
theorem connectVsock_only_while_running
    (connect : Nat → Nat → Except String Nat) (vm : VmInstance) (port : Nat) :
    (vm.vm_state ≠ VmState.Running →
      connectVsock connect vm port
        = (Except.error (new_binder_exception ExceptionCode.SERVICE_SPECIFIC
            "VM is not running"), false)) ∧
    (∀ s, (connectVsock connect vm port).1 = Except.ok s →
      vm.vm_state = VmState.Running) := by
  constructor
  · intro hne
    rw [connectVsock, if_neg hne]
  · intro s hs
    by_contra hne
    rw [connectVsock, if_neg hne] at hs
    exact absurd hs (by simp)

/-- Witness for C7's amended theorem at the concrete not-started
instance. -/
theorem connectVsock_only_while_running_witness :
    connectVsock connect0 vmNotStartedW 8
      = (Except.error (new_binder_exception ExceptionCode.SERVICE_SPECIFIC
          "VM is not running"), false) ∧
    vmStartingW.vm_state = VmState.Running :=
  ⟨(connectVsock_only_while_running connect0 vmNotStartedW 8).1 (by decide),
   (connectVsock_only_while_running connect0 vmStartingW 8).2 99 rfl⟩

/-- C9: evaluating `createOrUpdateIdsigFile` at an input whose APK content
makes `V4Signature::create` fail shows the process aborting (the source
calls `.unwrap()` on the result) instead of returning a structured error,
contradicting the propagation contract the claim states. -/
theorem idsig_panics_on_signature_failure :
    createOrUpdateIdsigFile (Except.ok 1) (Except.ok 2) sigFail lenOk writeOk
      = Outcome.panicked :=
  rfl

/-- C8: the listing returned by `State::vms` has exactly as many entries
as the registry holds minus those whose owning-handle count has reached
zero, and `State::add_vm` prunes exactly the zero-count entries before
appending the new one. -/
theorem registry_accounting :
    (∀ s : List WeakVm,
      (State.vms s).length
        = s.length - (s.filter (fun w => w.strong_count == 0)).length) ∧
    (∀ s v, State.add_vm s v = (s.filter (fun w => 0 < w.strong_count)) ++ [v]) := by
  constructor
  · intro s
    induction s with
    | nil => rfl
    | cons w tl ih =>
      rw [State.vms, List.filterMap_cons]
      by_cases h0 : w.strong_count = 0
      · have hup : WeakVm.upgrade w = none := by
          rw [WeakVm.upgrade, if_neg]
          omega
        rw [hup]
        have hf : (List.filter (fun w => w.strong_count == 0) (w :: tl))
            = w :: List.filter (fun w => w.strong_count == 0) tl := by
          rw [List.filter_cons]
          simp [h0]
        rw [hf]
        simpa [State.vms] using ih
      · have hpos : 0 < w.strong_count := Nat.pos_of_ne_zero h0
        have hup : WeakVm.upgrade w = some w.inst := by
          rw [WeakVm.upgrade, if_pos hpos]
        rw [hup]
        have hf : (List.filter (fun w => w.strong_count == 0) (w :: tl))
            = List.filter (fun w => w.strong_count == 0) tl := by
          rw [List.filter_cons]
          simp [h0]
        rw [hf]
        have hle : (List.filter (fun w => w.strong_count == 0) tl).length ≤ tl.length :=
          List.length_filter_le _ _
        have ihl := ih
        rw [State.vms] at ihl
        simp only [List.length_cons, ihl]
        omega
  · intro s v
    rfl

/-- C1: for a live cid, a payload notification whose requested transition
does not strictly advance the instance's payload state (per the modelled
strict one-step order) fails with an `ILLEGAL_STATE` binder exception,
leaves the live-instance list untouched and notifies no callback; in
particular, from `Starting`, `notifyPayloadReady` (skipping `Started`)
fails with `ILLEGAL_STATE` and the instance's payload state stays
`Starting`. -/
theorem notify_rejects_non_advancing (run : Nat → VmEvent → Bool)
    (vms : List VmInstance) (cid : Nat) (vm : VmInstance)
    (h : get_vm vms cid = some vm) :
    (PayloadState.idx PayloadState.Started ≠ vm.payload_state.idx + 1 →
      notifyPayloadStarted run vms cid
        = (vms, [], Except.error (new_binder_exception ExceptionCode.ILLEGAL_STATE
            "Invalid payload state transition"))) ∧
    (PayloadState.idx PayloadState.Ready ≠ vm.payload_state.idx + 1 →
      notifyPayloadReady run vms cid
        = (vms, [], Except.error (new_binder_exception ExceptionCode.ILLEGAL_STATE
            "Invalid payload state transition"))) ∧
    (PayloadState.idx PayloadState.Finished ≠ vm.payload_state.idx + 1 →
      ∀ exit_code, notifyPayloadFinished run vms cid exit_code
        = (vms, [], Except.error (new_binder_exception ExceptionCode.ILLEGAL_STATE
            "Invalid payload state transition"))) ∧
    (vm.payload_state = PayloadState.Starting →
      notifyPayloadReady run vms cid
        = (vms, [], Except.error (new_binder_exception ExceptionCode.ILLEGAL_STATE
            "Invalid payload state transition")) ∧
      get_vm (notifyPayloadReady run vms cid).1 cid = some vm ∧
      vm.payload_state = PayloadState.Starting) := by
  have reject : ∀ target : PayloadState, PayloadState.idx target ≠ vm.payload_state.idx + 1 →
      update_payload_state vm.payload_state target
        = Except.error "Invalid payload state transition" := by
    intro target hne
    rw [update_payload_state, if_neg hne]
  refine ⟨?_, ?_, ?_, ?_⟩
  · intro hne
    simp only [notifyPayloadStarted, h, reject PayloadState.Started hne]
  · intro hne
    simp only [notifyPayloadReady, h, reject PayloadState.Ready hne]
  · intro hne exit_code
    simp only [notifyPayloadFinished, h, reject PayloadState.Finished hne]
  · intro hst
    have hne : PayloadState.idx PayloadState.Ready ≠ vm.payload_state.idx + 1 := by
      rw [hst]
      decide
    have heq : notifyPayloadReady run vms cid
        = (vms, [], Except.error (new_binder_exception ExceptionCode.ILLEGAL_STATE
            "Invalid payload state transition")) := by
      simp only [notifyPayloadReady, h, reject PayloadState.Ready hne]
    exact ⟨heq, by rw [heq]; exact h, hst⟩

/-- Witness for C1 at a concrete running instance with payload `Starting`:
calling `notifyPayloadReady` (skipping `Started`) is rejected with
`ILLEGAL_STATE` and the instance list is unchanged. -/
theorem notify_rejects_non_advancing_witness :
    notifyPayloadReady run0 [vmStartingW] 4
      = ([vmStartingW], [], Except.error (new_binder_exception
          ExceptionCode.ILLEGAL_STATE "Invalid payload state transition")) ∧
    get_vm (notifyPayloadReady run0 [vmStartingW] 4).1 4 = some vmStartingW ∧
    notifyPayloadStarted run0 [vmStartedW] 7
      = ([vmStartedW], [], Except.error (new_binder_exception
          ExceptionCode.ILLEGAL_STATE "Invalid payload state transition")) ∧
    notifyPayloadFinished run0 [vmStartingW] 4 0
      = ([vmStartingW], [], Except.error (new_binder_exception
          ExceptionCode.ILLEGAL_STATE "Invalid payload state transition")) :=
  ⟨((notify_rejects_non_advancing run0 [vmStartingW] 4 vmStartingW rfl).2.2.2 rfl).1,
   ((notify_rejects_non_advancing run0 [vmStartingW] 4 vmStartingW rfl).2.2.2 rfl).2.1,
   (notify_rejects_non_advancing run0 [vmStartedW] 7 vmStartedW rfl).1 (by decide),
   (notify_rejects_non_advancing run0 [vmStartingW] 4 vmStartingW rfl).2.2.1
     (by decide) 0⟩

/-- C4: a successful `notifyPayloadStarted` takes the attached payload
stream — afterwards the instance's stream slot is empty — and passes that
stream together with the cid to every registered callback, modifying no
other instance field than the payload state the call advanced. -/
theorem notify_started_takes_stream (run : Nat → VmEvent → Bool)
    (vms : List VmInstance) (cid : Nat) (vm : VmInstance)
    (h : get_vm vms cid = some vm)
    (hadv : PayloadState.idx PayloadState.Started = vm.payload_state.idx + 1) :
    ∃ vm', get_vm (notifyPayloadStarted run vms cid).1 cid = some vm' ∧
      vm'.stream = none ∧
      (notifyPayloadStarted run vms cid).2.1
        = vm.callbacks.map (fun c => (c, VmEvent.payloadStarted cid vm.stream)) ∧
      (notifyPayloadStarted run vms cid).2.2 = Except.ok () ∧
      vm'.payload_state = PayloadState.Started ∧
      vm'.cid = vm.cid ∧ vm'.vm_state = vm.vm_state ∧
      vm'.callbacks = vm.callbacks ∧ vm'.requester_uid = vm.requester_uid ∧
      vm'.requester_sid = vm.requester_sid ∧
      vm'.requester_debug_pid = vm.requester_debug_pid ∧
      vm'.temporary_directory = vm.temporary_directory := by
  have hup : update_payload_state vm.payload_state PayloadState.Started
      = Except.ok PayloadState.Started := by
    rw [update_payload_state, if_pos hadv]
  refine ⟨{ vm with payload_state := PayloadState.Started, stream := none },
    ?_, rfl, ?_, ?_, rfl, rfl, rfl, rfl, rfl, rfl, rfl, rfl⟩
  · have : (notifyPayloadStarted run vms cid).1
        = setVm vms { vm with payload_state := PayloadState.Started, stream := none } := by
      simp only [notifyPayloadStarted, h, hup]
    rw [this]
    exact get_vm_setVm h rfl
  · simp only [notifyPayloadStarted, h, hup]
    exact fanout_eq_map run vm.callbacks (VmEvent.payloadStarted cid vm.stream)
  · simp only [notifyPayloadStarted, h, hup]

/-- Witness for C4 at a concrete running instance with payload `Starting`,
an attached stream and two listeners. -/
theorem notify_started_takes_stream_witness :
    ∃ vm', get_vm (notifyPayloadStarted run0 [vmStartingW] 4).1 4 = some vm' ∧
      vm'.stream = none ∧
      (notifyPayloadStarted run0 [vmStartingW] 4).2.1
        = vmStartingW.callbacks.map
            (fun c => (c, VmEvent.payloadStarted 4 vmStartingW.stream)) ∧
      (notifyPayloadStarted run0 [vmStartingW] 4).2.2 = Except.ok () ∧
      vm'.payload_state = PayloadState.Started ∧
      vm'.cid = vmStartingW.cid ∧ vm'.vm_state = vmStartingW.vm_state ∧
      vm'.callbacks = vmStartingW.callbacks ∧
      vm'.requester_uid = vmStartingW.requester_uid ∧
      vm'.requester_sid = vmStartingW.requester_sid ∧
      vm'.requester_debug_pid = vmStartingW.requester_debug_pid ∧
      vm'.temporary_directory = vmStartingW.temporary_directory :=
  notify_started_takes_stream run0 [vmStartingW] 4 vmStartingW rfl rfl

/-- Counterexample for C2 as stated: at a concrete request whose single
disk declares both a backing image and a non-empty partition list, the
request is indeed rejected with `ILLEGAL_ARGUMENT`, but files have been
created before the rejection — `createVm` creates the per-request
temporary directory and the `zero.img` filler before examining any disk
spec, so the effect trace at the moment of rejection is not empty. -/
theorem createVm_rejection_preceded_by_file_creation :
    createVm_disks env0 [bothDisk] 10
      = (Except.error (new_binder_exception ExceptionCode.ILLEGAL_ARGUMENT
          "DiskImage contains both image and partitions."),
         [FsEffect.createdDir "/data/misc/virtualizationservice/10",
          FsEffect.createdFile "/data/misc/virtualizationservice/10/zero.img"]) ∧
    (createVm_disks env0 [bothDisk] 10).2 ≠ [] := by
  constructor
  · rfl
  · intro hnil
    rw [show createVm_disks env0 [bothDisk] 10
        = (Except.error (new_binder_exception ExceptionCode.ILLEGAL_ARGUMENT
            "DiskImage contains both image and partitions."),
           [FsEffect.createdDir "/data/misc/virtualizationservice/10",
            FsEffect.createdFile "/data/misc/virtualizationservice/10/zero.img"])
      from rfl] at hnil
    simp at hnil

/-- C2 (amended): a `DiskImage` declaring both a backing image and a
non-empty partition list is rejected by the disk assembler with
`ILLEGAL_ARGUMENT` before the assembler itself creates or opens any file
(its effect trace is empty and the image-id counter and indirect-file list
are untouched), and a `createVm` request whose first disk is such a spec
fails with `ILLEGAL_ARGUMENT`; the request-scoped temporary directory and
zero-filler file, however, are created before the rejection. -/
theorem both_image_and_partitions_rejected (env : CreateVmEnv) (disk : DiskImage)
    (td : String) (nid : Nat) (ind : List Nat)
    (hp : disk.partitions ≠ []) (hi : disk.image.isSome) :
    assemble_disk_image env disk td nid ind
      = (Except.error (new_binder_exception ExceptionCode.ILLEGAL_ARGUMENT
          "DiskImage contains both image and partitions."), [], nid, ind) ∧
    (env.create_dir = Except.ok () → env.write_zero_filler = Except.ok () →
      ∀ cid rest, createVm_disks env (disk :: rest) cid
        = (Except.error (new_binder_exception ExceptionCode.ILLEGAL_ARGUMENT
            "DiskImage contains both image and partitions."),
           [FsEffect.createdDir ("/data/misc/virtualizationservice/" ++ toString cid),
            FsEffect.createdFile ("/data/misc/virtualizationservice/"
              ++ toString cid ++ "/zero.img")])) := by
  have hpe : disk.partitions.isEmpty = false := by
    cases hl : disk.partitions with
    | nil => exact absurd hl hp
    | cons a l => rfl
  have hasm : assemble_disk_image env disk td nid ind
      = (Except.error (new_binder_exception ExceptionCode.ILLEGAL_ARGUMENT
          "DiskImage contains both image and partitions."), [], nid, ind) := by
    rw [assemble_disk_image, if_pos hpe, if_pos hi]
  refine ⟨hasm, ?_⟩
  intro hdir hzero cid rest
  rw [createVm_disks, hdir, hzero]
  have hasm' : assemble_disk_image env disk
      ("/data/misc/virtualizationservice/" ++ toString cid) 0 []
      = (Except.error (new_binder_exception ExceptionCode.ILLEGAL_ARGUMENT
          "DiskImage contains both image and partitions."), [], 0, []) := by
    rw [assemble_disk_image, if_pos hpe, if_pos hi]
  simp only [assemble_disks, hasm']

/-- Witness for C2's amended theorem at the concrete environment and
bothDisk request used by the counterexample. -/
theorem both_image_and_partitions_rejected_witness :
    assemble_disk_image env0 bothDisk "/tmp" 0 []
      = (Except.error (new_binder_exception ExceptionCode.ILLEGAL_ARGUMENT
          "DiskImage contains both image and partitions."), [], 0, []) ∧
    createVm_disks env0 [bothDisk] 11
      = (Except.error (new_binder_exception ExceptionCode.ILLEGAL_ARGUMENT
          "DiskImage contains both image and partitions."),
         [FsEffect.createdDir "/data/misc/virtualizationservice/11",
          FsEffect.createdFile "/data/misc/virtualizationservice/11/zero.img"]) :=
  ⟨(both_image_and_partitions_rejected env0 bothDisk "/tmp" 0 []
      (by decide) rfl).1,
   (both_image_and_partitions_rejected env0 bothDisk "/tmp" 0 []
      (by decide) rfl).2 rfl rfl 11 []⟩

/-- Helper: `Nat.toDigitsCore` threads its accumulator as a suffix. -/
theorem toDigitsCore_acc (b : Nat) :
    ∀ (fuel n : Nat) (acc : List Char),
      Nat.toDigitsCore b fuel n acc = Nat.toDigitsCore b fuel n [] ++ acc := by
  intro fuel
  induction fuel with
  | zero => intro n acc; rfl
  | succ f ih =>
    intro n acc
    simp only [Nat.toDigitsCore]
    by_cases h : n / b = 0
    · rw [if_pos h, if_pos h]
      rfl
    · rw [if_neg h, if_neg h, ih (n / b) [Nat.digitChar (n % b)],
        ih (n / b) (Nat.digitChar (n % b) :: acc), List.append_assoc]
      rfl

/-- Helper: decimal digit characters are digits. -/
theorem digitChar_isDigit (d : Nat) (h : d < 10) :
    (Nat.digitChar d).isDigit = true := by
  interval_cases d <;> decide

/-- Helper: the numeric value of a decimal digit character. -/
theorem digitChar_val (d : Nat) (h : d < 10) :
    (Nat.digitChar d).toNat - '0'.toNat = d := by
  interval_cases d <;> decide

/-- Helper: every character produced by `Nat.toDigitsCore` in base 10 is a
digit. -/
theorem toDigitsCore_all_digits :
    ∀ (fuel n : Nat) (acc : List Char), (∀ c ∈ acc, c.isDigit = true) →
      ∀ c ∈ Nat.toDigitsCore 10 fuel n acc, c.isDigit = true := by
  intro fuel
  induction fuel with
  | zero => intro n acc hacc; exact hacc
  | succ f ih =>
    intro n acc hacc
    simp only [Nat.toDigitsCore]
    by_cases h : n / 10 = 0
    · rw [if_pos h]
      intro c hc
      rcases List.mem_cons.mp hc with hc | hc
      · rw [hc]; exact digitChar_isDigit _ (Nat.mod_lt _ (by norm_num))
      · exact hacc c hc
    · rw [if_neg h]
      apply ih
      intro c hc
      rcases List.mem_cons.mp hc with hc | hc
      · rw [hc]; exact digitChar_isDigit _ (Nat.mod_lt _ (by norm_num))
      · exact hacc c hc

/-- Helper: `Nat.toDigitsCore` never empties a non-empty accumulator. -/
theorem toDigitsCore_cons_ne_nil :
    ∀ (fuel n : Nat) (c : Char) (acc : List Char),
      Nat.toDigitsCore 10 fuel n (c :: acc) ≠ [] := by
  intro fuel
  induction fuel with
  | zero => intro n c acc; simp [Nat.toDigitsCore]
  | succ f ih =>
    intro n c acc
    simp only [Nat.toDigitsCore]
    by_cases h : n / 10 = 0
    · rw [if_pos h]; simp
    · rw [if_neg h]; exact ih _ _ _

/-- Helper: the decimal rendering of a number is never empty. -/
theorem toDigits_ne_nil (n : Nat) : Nat.toDigits 10 n ≠ [] := by
  rw [Nat.toDigits]
  show Nat.toDigitsCore 10 (n + 1) n [] ≠ []
  simp only [Nat.toDigitsCore]
  by_cases h : n / 10 = 0
  · rw [if_pos h]; simp
  · rw [if_neg h]; exact toDigitsCore_cons_ne_nil _ _ _ _

/-- Helper: folding the decimal digits of `n` back up recovers `n`. -/
theorem foldl_toDigitsCore :
    ∀ (fuel n : Nat), n < fuel →
      List.foldl (fun m c => m * 10 + (c.toNat - '0'.toNat)) 0
        (Nat.toDigitsCore 10 fuel n []) = n := by
  intro fuel
  induction fuel with
  | zero => intro n h; omega
  | succ f ih =>
    intro n h
    simp only [Nat.toDigitsCore]
    by_cases h0 : n / 10 = 0
    · rw [if_pos h0]
      have hn : n < 10 := by omega
      simp only [List.foldl]
      rw [digitChar_val _ (Nat.mod_lt _ (by norm_num))]
      omega
    · rw [if_neg h0, toDigitsCore_acc, List.foldl_append]
      have hdiv : n / 10 < f := by omega
      rw [ih (n / 10) hdiv]
      simp only [List.foldl]
      rw [digitChar_val _ (Nat.mod_lt _ (by norm_num))]
      omega

/-- Helper: parsing the decimal rendering of a number recovers it
(`str::parse::<u32>` inverts the `format!` write in `next_cid`). -/
theorem toNat?_repr (n : Nat) : String.toNat? (Nat.repr n) = some n := by
  have hrepr : Nat.repr n = (Nat.toDigits 10 n).asString := rfl
  rw [hrepr]
  have hdata : (Nat.toDigits 10 n).asString.data = Nat.toDigits 10 n := rfl
  have hne : Nat.toDigits 10 n ≠ [] := toDigits_ne_nil n
  have hisnat : (Nat.toDigits 10 n).asString.isNat = true := by
    rw [String.isNat]
    have h1 : (Nat.toDigits 10 n).asString.isEmpty = false := by
      by_contra hx
      have hx' : (Nat.toDigits 10 n).asString.isEmpty = true := by
        revert hx; cases h : (Nat.toDigits 10 n).asString.isEmpty <;> simp
      have := (String.isEmpty_iff _).mp hx'
      have : (Nat.toDigits 10 n).asString.data = "".data := by rw [this]
      rw [hdata] at this
      exact hne this
    have h2 : (Nat.toDigits 10 n).asString.all (·.isDigit) = true := by
      rw [String.all_eq]
      rw [show ((Nat.toDigits 10 n).asString.1 : List Char) = Nat.toDigits 10 n from rfl]
      rw [List.all_eq_true]
      intro c hc
      have : ∀ c ∈ Nat.toDigitsCore 10 (n + 1) n [], c.isDigit = true :=
        toDigitsCore_all_digits (n + 1) n [] (by intro c hc; cases hc)
      exact this c hc
    rw [h1, h2]
    rfl
  rw [String.toNat?, if_pos hisnat]
  rw [String.foldl_eq]
  rw [hdata]
  rw [show Nat.toDigits 10 n = Nat.toDigitsCore 10 (n + 1) n [] from rfl]
  rw [foldl_toDigitsCore (n + 1) n (Nat.lt_succ_self n)]

/-- Helper: the persisted decimal string written for a cid parses back to
it. -/
theorem parse_u32_repr (c : Nat) (h : c ≤ u32Max) :
    parse_u32 (Nat.repr c) = some c := by
  simp only [parse_u32, toNat?_repr]
  rw [if_pos h]

/-- Helper: any value accepted by the `u32` parser is in range. -/
theorem parse_u32_le {s : String} {c : Nat} (h : parse_u32 s = some c) :
    c ≤ u32Max := by
  rw [parse_u32] at h
  cases ht : s.toNat? with
  | none => rw [ht] at h; cases h
  | some n =>
    rw [ht] at h
    simp only [] at h
    by_cases hb : n ≤ u32Max
    · rw [if_pos hb] at h
      injection h with h
      omega
    · rw [if_neg hb] at h
      cases h

/-- Helper: a successful `next_cid` issues an in-range cid and persists
exactly its decimal rendering. -/
theorem next_cid_ok {first : Nat} {st : Option String} {v : Nat} {st1 : String}
    (hf : first ≤ u32Max) (h : next_cid first st = Except.ok (v, st1)) :
    v ≤ u32Max ∧ st1 = Nat.repr v := by
  cases st with
  | none =>
    rw [next_cid] at h
    injection h with h
    injection h with h1 h2
    subst h1
    subst h2
    exact ⟨hf, rfl⟩
  | some s =>
    rw [next_cid] at h
    cases hp : parse_u32 s with
    | none =>
      rw [hp] at h
      injection h with h
      injection h with h1 h2
      subst h1
      subst h2
      exact ⟨hf, rfl⟩
    | some c =>
      rw [hp] at h
      simp only [] at h
      by_cases hmax : c = u32Max
      · rw [if_pos hmax] at h
        cases h
      · rw [if_neg hmax] at h
        injection h with h
        injection h with h1 h2
        subst h1
        subst h2
        have hc := parse_u32_le hp
        exact ⟨by omega, rfl⟩

/-- Helper: allocations run from a store holding the decimal rendering of
an in-range cid `c` are all above `c`, strictly increasing, and leave the
store holding the rendering of the last issued cid. -/
theorem run_allocs_from (first : Nat) :
    ∀ (k c : Nat) (vs : List Nat) (st' : Option String), c ≤ u32Max →
      run_allocs first k (some (Nat.repr c)) = Except.ok (vs, st') →
      (∀ x ∈ vs, c < x) ∧ vs.Pairwise (· < ·) ∧
      (vs = [] → st' = some (Nat.repr c)) ∧
      (∀ v, vs.getLast? = some v → st' = some (Nat.repr v)) := by
  intro k
  induction k with
  | zero =>
    intro c vs st' hc h
    rw [run_allocs] at h
    injection h with h
    injection h with h1 h2
    subst h1
    subst h2
    refine ⟨by simp, by simp, fun _ => rfl, ?_⟩
    intro v hv
    simp at hv
  | succ k ih =>
    intro c vs st' hc h
    rw [run_allocs] at h
    have hnc : next_cid first (some (Nat.repr c))
        = if c = u32Max then Except.error CidError.ResourceExhausted
          else Except.ok (c + 1, Nat.repr (c + 1)) := by
      rw [next_cid, parse_u32_repr c hc]
    by_cases hmax : c = u32Max
    · rw [hnc, if_pos hmax] at h
      cases h
    · rw [hnc, if_neg hmax] at h
      simp only [] at h
      cases hrec : run_allocs first k (some (Nat.repr (c + 1))) with
      | error e =>
        rw [hrec] at h
        cases h
      | ok p =>
        obtain ⟨vs0, st0⟩ := p
        rw [hrec] at h
        injection h with h
        injection h with h1 h2
        subst h1
        subst h2
        have hc1 : c + 1 ≤ u32Max := by omega
        obtain ⟨h1, h2, h3, h4⟩ := ih (c + 1) vs0 st0 hc1 hrec
        refine ⟨?_, ?_, ?_, ?_⟩
        · intro x hx
          rcases List.mem_cons.mp hx with hx | hx
          · omega
          · have := h1 x hx
            omega
        · rw [List.pairwise_cons]
          exact ⟨fun x hx => by have := h1 x hx; omega, h2⟩
        · intro hcon
          cases hcon
        · intro v hv
          cases vs0 with
          | nil =>
            simp at hv
            rw [← hv]
            exact h3 rfl
          | cons x xs =>
            rw [List.getLast?_cons_cons] at hv
            exact h4 v hv

/-- C3: the CID allocator.  `next_cid` returns the previous persisted
value + 1, or the fixed first-guest value when no persisted value exists
or it is unparsable (recoverable), persisting the decimal rendering of the
value it returns; it fails with `ResourceExhausted` exactly when the
counter would leave the `u32` range; and over any sequence of successful
allocations each issued cid is strictly greater than all previously issued
ones, with the persisted counter holding the last issued value. -/
theorem next_cid_contract (first : Nat) (hf : first ≤ u32Max) :
    (next_cid first none = Except.ok (first, Nat.repr first)) ∧
    (∀ s, parse_u32 s = none →
      next_cid first (some s) = Except.ok (first, Nat.repr first)) ∧
    (∀ s c, parse_u32 s = some c → c ≠ u32Max →
      next_cid first (some s) = Except.ok (c + 1, Nat.repr (c + 1))) ∧
    (∀ s, parse_u32 s = some u32Max →
      next_cid first (some s) = Except.error CidError.ResourceExhausted) ∧
    (∀ k st vs st', run_allocs first k st = Except.ok (vs, st') →
      vs.Pairwise (· < ·) ∧ (vs = [] → st' = st) ∧
      (∀ v, vs.getLast? = some v → st' = some (Nat.repr v))) := by
  refine ⟨rfl, ?_, ?_, ?_, ?_⟩
  · intro s hp
    rw [next_cid, hp]
  · intro s c hp hne
    rw [next_cid, hp]
    simp only []
    rw [if_neg hne]
  · intro s hp
    rw [next_cid, hp]
    simp
  · intro k
    cases k with
    | zero =>
      intro st vs st' h
      rw [run_allocs] at h
      injection h with h
      injection h with h1 h2
      subst h1
      subst h2
      refine ⟨by simp, fun _ => rfl, ?_⟩
      intro v hv
      simp at hv
    | succ k =>
      intro st vs st' h
      rw [run_allocs] at h
      cases hnc : next_cid first st with
      | error e =>
        rw [hnc] at h
        cases h
      | ok p =>
        obtain ⟨v1, st1⟩ := p
        rw [hnc] at h
        simp only [] at h
        obtain ⟨hv1, hst1⟩ := next_cid_ok hf hnc
        cases hrec : run_allocs first k (some st1) with
        | error e =>
          rw [hrec] at h
          cases h
        | ok p =>
          obtain ⟨vs0, st0⟩ := p
          rw [hrec] at h
          injection h with h
          injection h with h1 h2
          subst h1
          subst h2
          rw [hst1] at hrec
          obtain ⟨h1, h2, h3, h4⟩ := run_allocs_from first k v1 vs0 st0 hv1 hrec
          refine ⟨?_, ?_, ?_⟩
          · rw [List.pairwise_cons]
            exact ⟨h1, h2⟩
          · intro hcon
            cases hcon
          · intro v hv
            cases vs0 with
            | nil =>
              simp at hv
              rw [← hv]
              exact h3 rfl
            | cons x xs =>
              rw [List.getLast?_cons_cons] at hv
              exact h4 v hv

/-- Witness for C3: three successful allocations from an empty store with
first-guest value 10 issue 10, 11, 12 — strictly increasing — and leave
the persisted counter at "12". -/
theorem next_cid_contract_witness :
    (run_allocs 10 3 none = Except.ok ([10, 11, 12], some "12") ∧
     ([10, 11, 12] : List Nat).Pairwise (· < ·) ∧
     (some "12" : Option String) = some (Nat.repr 12)) ∧
    next_cid 10 (some "") = Except.ok (10, Nat.repr 10) ∧
    next_cid 10 (some (Nat.repr 5)) = Except.ok (6, Nat.repr 6) ∧
    next_cid 10 (some (Nat.repr u32Max)) = Except.error CidError.ResourceExhausted := by
  have h10 : next_cid 10 none = Except.ok (10, Nat.repr 10) := rfl
  have h11 : next_cid 10 (some (Nat.repr 10)) = Except.ok (11, Nat.repr 11) := by
    rw [next_cid, parse_u32_repr 10 (by decide)]
    simp only []
    rw [if_neg (by decide)]
  have h12 : next_cid 10 (some (Nat.repr 11)) = Except.ok (12, Nat.repr 12) := by
    rw [next_cid, parse_u32_repr 11 (by decide)]
    simp only []
    rw [if_neg (by decide)]
  have hrepr : (Nat.repr 12 : String) = "12" := rfl
  have hrun : run_allocs 10 3 none = Except.ok ([10, 11, 12], some "12") := by
    simp only [run_allocs, h10, h11, h12, hrepr]
  refine ⟨⟨hrun, ?_, ?_⟩, ?_, ?_, ?_⟩
  · exact ((next_cid_contract 10 (by decide)).2.2.2.2 3 none [10, 11, 12]
      (some "12") hrun).1
  · exact ((next_cid_contract 10 (by decide)).2.2.2.2 3 none [10, 11, 12]
      (some "12") hrun).2.2 12 rfl
  · exact (next_cid_contract 10 (by decide)).2.1 "" rfl
  · exact (next_cid_contract 10 (by decide)).2.2.1 (Nat.repr 5) 5
      (parse_u32_repr 5 (by decide)) (by decide)
  · exact (next_cid_contract 10 (by decide)).2.2.2.1 (Nat.repr u32Max)
      (parse_u32_repr u32Max (Nat.le_refl u32Max))
